import Mathlib

/-!
Verification of the endpoint-catalog / dispatcher layer of the
yahooquery-streamlit app (src/app.py), shallowly embedded in Lean 4.

The external data-access collaborator (the yahooquery Ticker class) is
modelled as a stub exposing the two kinds of access the app performs:
a call with arguments (getattr followed by a call) and a plain attribute
access (getattr alone).  Python exceptions are modelled with an explicit
error type: TypeError (the argument mismatch the dispatcher handles
locally) versus every other exception.
-/

set_option autoImplicit false

/-- Python exceptions, as far as the dispatcher distinguishes them:
a TypeError (argument-count/type mismatch) is handled locally in
get_data; every other exception is opaque and carries its message. -/
inductive Exc where
  | typeError
  | other (msg : String)
  deriving DecidableEq, Repr

/-- Untyped query results returned verbatim by the collaborator.
dict models a combined structure keyed by symbol (a Python dict),
table models a pandas DataFrame (rows), raw models any other Python
object, such as a bound method returned by a plain attribute access. -/
inductive Value where
  | dict (entries : List (String × String))
  | table (rows : List (List String))
  | raw (s : String)
  deriving DecidableEq, Repr

/-- One observable access to the collaborator, for counting upstream
calls on a stub. -/
inductive Access where
  | callAccess (attrName : String) (args : List String)
  | attrAccess (attrName : String)
  deriving DecidableEq, Repr

/-- Stub of the yahooquery Ticker handle.  call a args models
getattr(ticker, a)(*args); attr a models plain getattr(ticker, a).
Either can raise (return an error). -/
structure TickerStub where
  call : String → List String → Except Exc Value
  attr : String → Except Exc Value

/-- Embedding of get_data (src/app.py lines 86-102), ignoring the
st.cache decorator (modelled separately by cached_get_data):
try getattr(ticker, attribute)(*args); on TypeError fall back to the
plain attribute access; any other outcome is returned as is. -/
def get_data (t : TickerStub) (attrName : String) (args : List String) :
    Except Exc Value :=
  match t.call attrName args with
  | Except.error Exc.typeError => t.attr attrName
  | r => r

/-- Instrumented get_data: same result, plus the ordered list of
accesses made to the collaborator, so retries can be counted. -/
def get_data_trace (t : TickerStub) (attrName : String) (args : List String) :
    Except Exc Value × List Access :=
  match t.call attrName args with
  | Except.error Exc.typeError =>
      (t.attr attrName, [Access.callAccess attrName args, Access.attrAccess attrName])
  | r => (r, [Access.callAccess attrName args])

/-- The instrumented dispatcher computes the same result as get_data. -/
theorem get_data_trace_fst (t : TickerStub) (a : String) (args : List String) :
    (get_data_trace t a args).1 = get_data t a args := by
  unfold get_data get_data_trace
  rcases h : t.call a args with e | v
  · cases e <;> simp [h]
  · simp [h]

/-- Per-session memoization state of the st.cache decorator on
get_data: a table keyed by (attribute, args) holding successful
results, plus a count of collaborator accesses for call-count
assertions on a stub. -/
structure Session where
  cache : List ((String × List String) × Value)
  upstreamCalls : Nat
  deriving Repr

def emptySession : Session := ⟨[], 0⟩

/-- Association-list lookup for the memo table. -/
def cacheLookup (k : String × List String) :
    List ((String × List String) × Value) → Option Value
  | [] => none
  | (k2, v) :: rest => if k = k2 then some v else cacheLookup k rest

/-- get_data as wrapped by the st.cache decorator (src/app.py line 86):
on a cache hit the stored result is returned with no collaborator
access; on a miss the body runs, its collaborator accesses are counted,
and a successful result is stored.  Exceptions are not cached. -/
def cached_get_data (t : TickerStub) (a : String) (args : List String)
    (s : Session) : Except Exc Value × Session :=
  match cacheLookup (a, args) s.cache with
  | some v => (Except.ok v, s)
  | none =>
    let r := get_data_trace t a args
    match r.1 with
    | Except.ok v =>
        (Except.ok v, ⟨((a, args), v) :: s.cache, s.upstreamCalls + r.2.length⟩)
    | Except.error e =>
        (Except.error e, ⟨s.cache, s.upstreamCalls + r.2.length⟩)

/-- The BASE_MODULES catalog (src/app.py lines 9-46), verbatim. -/
def BASE_MODULES : List (String × String) := [
  ("asset_profile", "Asset Profile"),
  ("calendar_events", "Calendar Events"),
  ("esg_scores", "ESG Scores"),
  ("financial_data", "Financial Data"),
  ("fund_profile", "Fund Profile"),
  ("key_stats", "Key Statistics"),
  ("major_holders", "Major Holders"),
  ("price", "Pricing"),
  ("quote_type", "Quote Type"),
  ("share_purchase_activity", "Share Purchase Activity"),
  ("summary_detail", "Summary Detail"),
  ("summary_profile", "Summary Profile"),
  ("balance_sheet", "Balance Sheet"),
  ("cash_flow", "Cash Flow"),
  ("company_officers", "Company Officers"),
  ("earning_history", "Earning History"),
  ("earnings", "Earnings"),
  ("earnings_trend", "Earnings Trend"),
  ("index_trend", "Index Trend"),
  ("sector_trend", "Sector Trend"),
  ("industry_trend", "Industry Trend"),
  ("fund_ownership", "Fund Ownership"),
  ("grading_history", "Grading History"),
  ("income_statement", "Income Statement"),
  ("insider_holders", "Insider Holders"),
  ("insider_transactions", "Insider Transactions"),
  ("institution_ownership", "Institution Ownership"),
  ("recommendation_trend", "Recommendation Trends"),
  ("sec_filings", "SEC Filings"),
  ("fund_bond_holdings", "Fund Bond Holdings"),
  ("fund_bond_ratings", "Fund Bond Ratings"),
  ("fund_equity_holdings", "Fund Equity Holdings"),
  ("fund_holding_info", "Fund Holding Information"),
  ("fund_performance", "Fund Performance"),
  ("fund_sector_weightings", "Fund Sector Weightings"),
  ("fund_top_holdings", "Fund Top Holdings")]

/-- The PREMIUM catalog (src/app.py lines 48-59), verbatim. -/
def PREMIUM : List (String × String) := [
  ("p_balance_sheet", "Balance Sheet"),
  ("p_cash_flow", "Cash Flow"),
  ("p_income_statement", "Income Statement"),
  ("p_company_360", "Company 360"),
  ("p_portal", "Premium Portal"),
  ("p_reports", "Research Reports"),
  ("p_ideas", "Trade Ideas"),
  ("p_technical_events", "Technical Events"),
  ("p_value_analyzer", "Value Analyzer"),
  ("p_value_analyzer_drilldown", "Value Analyzer Drilldown")]

/-- Python dict indexing d[k]: some value when the key is present,
none modelling the KeyError raised when it is absent. -/
def dictGet (k : String) : List (String × String) → Option String
  | [] => none
  | (k2, v) :: rest => if k = k2 then some v else dictGet k rest

/-- Embedding of format_func (src/app.py lines 62-71):
BASE_MODULES[option], with none standing for the KeyError on an
unknown identifier. -/
def format_func (option : String) : Option String :=
  dictGet option BASE_MODULES

/-- Embedding of format_premium (src/app.py lines 74-83):
PREMIUM[option], with none standing for the KeyError on an unknown
identifier. -/
def format_premium (option : String) : Option String :=
  dictGet option PREMIUM

theorem dictGet_eq_none_iff (k : String) :
    ∀ l : List (String × String), dictGet k l = none ↔ k ∉ l.map Prod.fst := by
  intro l
  induction l with
  | nil => simp [dictGet]
  | cons hd tl ih =>
    obtain ⟨k2, v⟩ := hd
    by_cases hk : k = k2
    · subst hk
      simp [dictGet]
    · simp [dictGet, hk, ih]

theorem dictGet_mem_snd (k v : String) :
    ∀ l : List (String × String), dictGet k l = some v → v ∈ l.map Prod.snd := by
  intro l
  induction l with
  | nil => simp [dictGet]
  | cons hd tl ih =>
    obtain ⟨k2, v2⟩ := hd
    intro h
    simp only [dictGet] at h
    by_cases hk : k = k2
    · rw [if_pos hk] at h
      rw [List.map_cons, ← Option.some.inj h]
      exact List.mem_cons_self v2 (tl.map Prod.snd)
    · rw [if_neg hk] at h
      exact List.mem_cons_of_mem v2 (ih h)

/-- Arity of an endpoint access, per the spec data model.  The history
arity is handled by a dedicated page (history_view) and never flows
through the module dispatch. -/
inductive Arity where
  | zero
  | requiresFrequency
  | requiresHistoryArgs
  deriving DecidableEq, Repr

/-- Embedding of the dynamic capability probe used at src/app.py
lines 228 and 258: isinstance(getattr(Ticker, module), property).
The probe itself is an operation of the external class and is passed
in as a function; resolveArity turns its verdict into an arity. -/
def resolveArity (is_property : String → Bool) (module : String) : Arity :=
  if is_property module then Arity.zero else Arity.requiresFrequency

/-- Python str.lower(), written character by character so that the
kernel can evaluate it on literals. -/
def pyLower (s : String) : String :=
  String.mk (s.data.map Char.toLower)

/-- Embedding of arg = frequency[:1].lower() (src/app.py lines 234
and 264): the selection reduced to a one-letter lowercase code. -/
def freqArg (frequency : String) : String :=
  pyLower (frequency.take 1)

/-- The get_data invocation the dispatch constructs: which attribute is
accessed and with which positional arguments. -/
structure Invocation where
  attrName : String
  args : List String
  deriving DecidableEq, Repr

/-- Embedding of the single-module dispatch of base_view (src/app.py
lines 258-266): probe the access; a property is fetched with no
arguments, anything else is called with the one-letter frequency
code. -/
def single_module_invocation (is_property : String → Bool)
    (module frequency : String) : Invocation :=
  if is_property module then
    ⟨module, []⟩
  else
    ⟨module, [freqArg frequency]⟩

/-- Embedding of the dispatch of premium_view (src/app.py lines
228-236), identical in shape to the base_view single-module dispatch. -/
def premium_invocation (is_property : String → Bool)
    (module frequency : String) : Invocation :=
  if is_property module then
    ⟨module, []⟩
  else
    ⟨module, [freqArg frequency]⟩

/-- What the multiple-modules branch of base_view does downstream. -/
inductive ModulesAction where
  | warnNoModules
  | callGetModules (modules : List String)
  deriving DecidableEq, Repr

/-- Embedding of the multiple-modules branch of base_view (src/app.py
lines 293-297): if not modules, only a warning is shown and no upstream
call is made; otherwise get_modules is invoked with the selected
list. -/
def multiple_modules_action (modules : List String) : ModulesAction :=
  if modules.isEmpty then
    ModulesAction.warnNoModules
  else
    ModulesAction.callGetModules modules

/-- The two branches of the period-versus-dates selectbox in
history_view (src/app.py line 351). -/
inductive HistoryMode where
  | period
  | dates
  deriving DecidableEq, Repr

/-- The keyword arguments handed to Ticker.history.  Dates are modelled
as day ordinals (Nat). -/
structure HistoryArgs where
  period : Option String
  interval : String
  start : Option Nat
  «end» : Option Nat
  deriving DecidableEq, Repr

/-- Embedding of the history_args construction of history_view
(src/app.py lines 345-367).  The dict starts at its defaults
(period 1y, interval 1d, start today minus 365, end None); in Period
mode the selected period is kept and start and end are set to None; in
Dates mode the two date inputs are stored and period is set to None;
finally the selected interval is written. -/
def buildHistoryRequest (today : Nat) (mode : HistoryMode)
    (selectedPeriod : String) (startInput endInput : Nat)
    (selectedInterval : String) : HistoryArgs :=
  let h0 : HistoryArgs :=
    { period := some "1y", interval := "1d",
      start := some (today - 365), «end» := none }
  let h1 :=
    match mode with
    | HistoryMode.period =>
        { h0 with period := some selectedPeriod, start := none, «end» := none }
    | HistoryMode.dates =>
        { h0 with start := some startInput, «end» := some endInput,
                  period := none }
  { h1 with interval := selectedInterval }

/-- The shape distinction the history page draws on its result. -/
inductive ResultClass where
  | MultiSymbolDictResult
  | TabularResult
  deriving DecidableEq, Repr

/-- Embedding of the isinstance(dataframe, dict) classification at
src/app.py line 372: a dict is the combined multi-symbol structure,
anything else is treated as tabular. -/
def classifyHistoryResult : Value → ResultClass
  | Value.dict _ => ResultClass.MultiSymbolDictResult
  | _ => ResultClass.TabularResult

/-- What the history page renders downstream of the classification. -/
inductive DisplayAction where
  | writeRaw
  | altairChartAndTable
  | ohlcChartAndTable
  deriving DecidableEq, Repr

/-- Embedding of the display branching of history_view (src/app.py
lines 372-396): a dict result is written raw; a tabular result is
charted (line chart for more than one symbol, OHLC chart otherwise)
and shown as a dataframe. -/
def displayHistory (numSymbols : Nat) : Value → DisplayAction
  | Value.dict _ => DisplayAction.writeRaw
  | _ => if numSymbols > 1 then DisplayAction.altairChartAndTable
         else DisplayAction.ohlcChartAndTable

/-- Stub whose calls always raise a TypeError while the plain attribute
access succeeds, modelling an access that is not callable with the
supplied arguments. -/
def alwaysMismatchStub : TickerStub :=
  { call := fun _ _ => Except.error Exc.typeError,
    attr := fun a => Except.ok (Value.raw (a ++ " attribute")) }

/-- Stub modelling a method that requires its argument: the zero-arg
call raises a TypeError, a call with arguments returns data, and the
plain attribute access yields the bound method object. -/
def methodStub : TickerStub :=
  { call := fun a args =>
      if args.isEmpty then Except.error Exc.typeError
      else Except.ok (Value.table [[a]]),
    attr := fun a => Except.ok (Value.raw ("bound method " ++ a)) }

/-- Stub whose calls always succeed, for memoization call-count
assertions. -/
def okStub : TickerStub :=
  { call := fun a _ => Except.ok (Value.raw a),
    attr := fun _ => Except.error (Exc.other "AttributeError") }

/-- C1: when the access raises a TypeError, get_data retries the same
access exactly once as a plain attribute access and returns that
result; an ok result is returned as is with a single access; any other
exception propagates unchanged with a single access and no retry. -/
theorem get_data_typeError_fallback (t : TickerStub) (a : String)
    (args : List String) :
    (t.call a args = Except.error Exc.typeError →
      get_data t a args = t.attr a ∧
      (get_data_trace t a args).2 =
        [Access.callAccess a args, Access.attrAccess a]) ∧
    (∀ m, t.call a args = Except.error (Exc.other m) →
      get_data t a args = Except.error (Exc.other m) ∧
      (get_data_trace t a args).2 = [Access.callAccess a args]) ∧
    (∀ v, t.call a args = Except.ok v →
      get_data t a args = Except.ok v ∧
      (get_data_trace t a args).2 = [Access.callAccess a args]) := by
  refine ⟨fun h => ?_, fun m h => ?_, fun v h => ?_⟩ <;>
    simp [get_data, get_data_trace, h]

theorem get_data_typeError_fallback_witness :
    get_data alwaysMismatchStub "balance_sheet" ["a"] =
      alwaysMismatchStub.attr "balance_sheet" ∧
    (get_data_trace alwaysMismatchStub "balance_sheet" ["a"]).2 =
      [Access.callAccess "balance_sheet" ["a"],
       Access.attrAccess "balance_sheet"] :=
  (get_data_typeError_fallback alwaysMismatchStub "balance_sheet" ["a"]).1 rfl

/-- C8: invoking an identifier whose access requires an argument with
zero args never leaves the TypeError unhandled: get_data falls back to
the plain zero-argument attribute access, so its result is exactly that
access, which either succeeds or fails explicitly. -/
theorem invoke_zero_args_fallback (t : TickerStub) (a : String)
    (h : t.call a [] = Except.error Exc.typeError) :
    get_data t a [] = t.attr a ∧
    ((∃ v, get_data t a [] = Except.ok v) ∨
     (∃ e, get_data t a [] = Except.error e ∧ t.attr a = Except.error e)) := by
  have h1 : get_data t a [] = t.attr a := by
    simp [get_data, h]
  refine ⟨h1, ?_⟩
  rcases h2 : t.attr a with e | v
  · exact Or.inr ⟨e, h1.trans h2, rfl⟩
  · exact Or.inl ⟨v, h1.trans h2⟩

theorem invoke_zero_args_fallback_witness :
    get_data methodStub "balance_sheet" [] = methodStub.attr "balance_sheet" ∧
    ((∃ v, get_data methodStub "balance_sheet" [] = Except.ok v) ∨
     (∃ e, get_data methodStub "balance_sheet" [] = Except.error e ∧
           methodStub.attr "balance_sheet" = Except.error e)) :=
  invoke_zero_args_fallback methodStub "balance_sheet" rfl

/-- C5: two consecutive memoized invocations with identical
(identifier, args) in one session return the same value, and the stub
collaborator is accessed exactly once over the two calls. -/
theorem memoized_invoke_single_upstream_call (t : TickerStub) (a : String)
    (args : List String) (v : Value) (h : t.call a args = Except.ok v) :
    (cached_get_data t a args emptySession).1 = Except.ok v ∧
    (cached_get_data t a args
      (cached_get_data t a args emptySession).2).1 = Except.ok v ∧
    (cached_get_data t a args emptySession).2.upstreamCalls = 1 ∧
    (cached_get_data t a args
      (cached_get_data t a args emptySession).2).2.upstreamCalls = 1 := by
  have h1 : cached_get_data t a args emptySession =
      (Except.ok v, ⟨[((a, args), v)], 1⟩) := by
    simp [cached_get_data, emptySession, cacheLookup, get_data_trace, h]
  have h2 : cached_get_data t a args (⟨[((a, args), v)], 1⟩ : Session) =
      (Except.ok v, ⟨[((a, args), v)], 1⟩) := by
    simp [cached_get_data, cacheLookup]
  rw [h1]
  rw [h2]
  exact ⟨rfl, rfl, rfl, rfl⟩

theorem memoized_invoke_single_upstream_call_witness :
    (cached_get_data okStub "price" [] emptySession).1 =
      Except.ok (Value.raw "price") ∧
    (cached_get_data okStub "price" []
      (cached_get_data okStub "price" [] emptySession).2).1 =
      Except.ok (Value.raw "price") ∧
    (cached_get_data okStub "price" [] emptySession).2.upstreamCalls = 1 ∧
    (cached_get_data okStub "price" []
      (cached_get_data okStub "price" [] emptySession).2).2.upstreamCalls = 1 :=
  memoized_invoke_single_upstream_call okStub "price" [] (Value.raw "price") rfl

/-- C6: for every identifier present in a catalog, the display-name
lookup returns a non-empty string (and, being a pure function of the
static catalog, the same string on every call); for every identifier
absent from the catalog it returns none, modelling the KeyError
(UnknownEndpoint) instead of a value.  Stated for format_func over
BASE_MODULES and format_premium over PREMIUM. -/
theorem lookupDisplayName_total_on_catalog (k : String) :
    (k ∈ BASE_MODULES.map Prod.fst →
      ∃ v, format_func k = some v ∧ v ≠ "") ∧
    (k ∉ BASE_MODULES.map Prod.fst → format_func k = none) ∧
    (k ∈ PREMIUM.map Prod.fst →
      ∃ v, format_premium k = some v ∧ v ≠ "") ∧
    (k ∉ PREMIUM.map Prod.fst → format_premium k = none) := by
  have hbase : ∀ v ∈ BASE_MODULES.map Prod.snd, v ≠ "" := by decide
  have hprem : ∀ v ∈ PREMIUM.map Prod.snd, v ≠ "" := by decide
  refine ⟨?_, ?_, ?_, ?_⟩
  · intro hk
    cases hv : dictGet k BASE_MODULES with
    | none => exact absurd hk ((dictGet_eq_none_iff k BASE_MODULES).1 hv)
    | some v =>
        exact ⟨v, hv, hbase v (dictGet_mem_snd k v BASE_MODULES hv)⟩
  · intro hk
    exact (dictGet_eq_none_iff k BASE_MODULES).2 hk
  · intro hk
    cases hv : dictGet k PREMIUM with
    | none => exact absurd hk ((dictGet_eq_none_iff k PREMIUM).1 hv)
    | some v =>
        exact ⟨v, hv, hprem v (dictGet_mem_snd k v PREMIUM hv)⟩
  · intro hk
    exact (dictGet_eq_none_iff k PREMIUM).2 hk

theorem lookupDisplayName_total_on_catalog_witness :
    (∃ v, format_func "asset_profile" = some v ∧ v ≠ "") ∧
    format_func "not_a_module" = none ∧
    (∃ v, format_premium "p_reports" = some v ∧ v ≠ "") ∧
    format_premium "not_a_module" = none :=
  ⟨(lookupDisplayName_total_on_catalog "asset_profile").1 (by decide),
   (lookupDisplayName_total_on_catalog "not_a_module").2.1 (by decide),
   (lookupDisplayName_total_on_catalog "p_reports").2.2.1 (by decide),
   (lookupDisplayName_total_on_catalog "not_a_module").2.2.2 (by decide)⟩

/-- C7: arity resolution is a function of the dynamic capability probe,
not of a static table: for any probe verdict on an identifier, the
dispatches of base_view and premium_view take the zero-argument path
exactly when the probe reports a property, and the same identifier
resolves to either arity depending on the probe alone. -/
theorem resolveArity_dynamic_probe (is_property : String → Bool)
    (m f : String) :
    (resolveArity is_property m = Arity.zero ↔ is_property m = true) ∧
    ((single_module_invocation is_property m f).args = [] ↔
      resolveArity is_property m = Arity.zero) ∧
    ((premium_invocation is_property m f).args = [] ↔
      resolveArity is_property m = Arity.zero) ∧
    resolveArity (fun _ => true) m = Arity.zero ∧
    resolveArity (fun _ => false) m = Arity.requiresFrequency := by
  cases hp : is_property m <;>
    simp [resolveArity, single_module_invocation, premium_invocation, hp]

theorem resolveArity_dynamic_probe_witness :
    (single_module_invocation (fun _ => true) "balance_sheet" "Annual").args
      = [] ∧
    resolveArity (fun _ => false) "balance_sheet" = Arity.requiresFrequency :=
  ⟨(resolveArity_dynamic_probe (fun _ => true) "balance_sheet" "Annual").2.1.mpr
     rfl,
   (resolveArity_dynamic_probe (fun _ => false) "balance_sheet"
     "Annual").2.2.2.2⟩

/-- C9: the reporting-frequency argument is the selection reduced to a
one-letter lowercase code: Annual becomes a, Quarterly becomes q, and
on the non-property path both dispatches forward exactly that code as
the single positional argument. -/
theorem frequency_code_forwarding (is_property : String → Bool)
    (m : String) (h : is_property m = false) :
    freqArg "Annual" = "a" ∧ freqArg "Quarterly" = "q" ∧
    single_module_invocation is_property m "Annual" = ⟨m, ["a"]⟩ ∧
    single_module_invocation is_property m "Quarterly" = ⟨m, ["q"]⟩ ∧
    premium_invocation is_property m "Annual" = ⟨m, ["a"]⟩ ∧
    premium_invocation is_property m "Quarterly" = ⟨m, ["q"]⟩ := by
  refine ⟨by decide, by decide, ?_, ?_, ?_, ?_⟩ <;>
    simp [single_module_invocation, premium_invocation, h] <;> decide

theorem frequency_code_forwarding_witness :
    single_module_invocation (fun _ => false) "balance_sheet" "Annual" =
      ⟨"balance_sheet", ["a"]⟩ ∧
    premium_invocation (fun _ => false) "p_balance_sheet" "Quarterly" =
      ⟨"p_balance_sheet", ["q"]⟩ :=
  ⟨(frequency_code_forwarding (fun _ => false) "balance_sheet" rfl).2.2.1,
   (frequency_code_forwarding (fun _ => false) "p_balance_sheet"
     rfl).2.2.2.2.2⟩

/-- C10: the multiple-modules branch issues no upstream call and only
warns when the selected module list is empty, and issues the
get_modules call with exactly the selected list when it is
non-empty. -/
theorem multiple_modules_call_iff_nonempty (modules : List String) :
    (modules = [] →
      multiple_modules_action modules = ModulesAction.warnNoModules) ∧
    (modules ≠ [] →
      multiple_modules_action modules =
        ModulesAction.callGetModules modules) := by
  constructor
  · intro h
    subst h
    rfl
  · intro h
    simp [multiple_modules_action, h]

theorem multiple_modules_call_iff_nonempty_witness :
    multiple_modules_action [] = ModulesAction.warnNoModules ∧
    multiple_modules_action ["assetProfile"] =
      ModulesAction.callGetModules ["assetProfile"] :=
  ⟨(multiple_modules_call_iff_nonempty []).1 rfl,
   (multiple_modules_call_iff_nonempty ["assetProfile"]).2 (by simp)⟩

/-- C2: the history request makes period and explicit dates mutually
exclusive by construction: in Dates mode the resulting period is none,
and in Period mode start and end are both none while period retains the
selected value. -/
theorem history_request_mutual_exclusion (today : Nat) (p : String)
    (s e : Nat) (i : String) :
    (buildHistoryRequest today HistoryMode.dates p s e i).period = none ∧
    (buildHistoryRequest today HistoryMode.period p s e i).start = none ∧
    (buildHistoryRequest today HistoryMode.period p s e i).«end» = none ∧
    (buildHistoryRequest today HistoryMode.period p s e i).period = some p :=
  ⟨rfl, rfl, rfl, rfl⟩

/-- C3 counterexample: with today = 737000, a start date and an end
date both equal to today are forwarded as some 737000, not normalized
to none as the claim states. -/
theorem history_today_counterexample :
    (buildHistoryRequest 737000 HistoryMode.dates "1y" 737000 737000
      "1d").start = some 737000 ∧
    (buildHistoryRequest 737000 HistoryMode.dates "1y" 737000 737000
      "1d").«end» = some 737000 ∧
    (buildHistoryRequest 737000 HistoryMode.dates "1y" 737000 737000
      "1d").start ≠ none ∧
    (buildHistoryRequest 737000 HistoryMode.dates "1y" 737000 737000
      "1d").«end» ≠ none := by
  refine ⟨rfl, rfl, ?_, ?_⟩ <;> decide

/-- C3 (amended): history_view applies no today-to-none normalization;
in Dates mode the supplied start and end dates are forwarded unchanged,
even when they equal today. -/
theorem history_dates_passthrough (today : Nat) (p : String) (s e : Nat)
    (i : String) :
    (buildHistoryRequest today HistoryMode.dates p today e i).start =
      some today ∧
    (buildHistoryRequest today HistoryMode.dates p s today i).«end» =
      some today :=
  ⟨rfl, rfl⟩

/-- C4: the history page classifies a dict result (a combined structure
keyed by symbol) as MultiSymbolDictResult and anything tabular as
TabularResult, and the display branches on exactly this distinction:
the raw write happens precisely for MultiSymbolDictResult, whatever the
symbol count; in particular a two-symbol combined dict is
MultiSymbolDictResult and a one-symbol table is TabularResult. -/
theorem history_result_classification (n : Nat) (r : Value) :
    (classifyHistoryResult r = ResultClass.MultiSymbolDictResult ↔
      displayHistory n r = DisplayAction.writeRaw) ∧
    (classifyHistoryResult r = ResultClass.TabularResult ↔
      displayHistory n r ≠ DisplayAction.writeRaw) ∧
    classifyHistoryResult
      (Value.dict [("aapl", "rows"), ("msft", "rows")]) =
      ResultClass.MultiSymbolDictResult ∧
    classifyHistoryResult (Value.table [["2020-01-02", "300.35"]]) =
      ResultClass.TabularResult := by
  refine ⟨?_, ?_, rfl, rfl⟩ <;>
    cases r <;> simp [classifyHistoryResult, displayHistory] <;>
      split <;> simp

theorem history_result_classification_witness :
    displayHistory 2 (Value.dict [("aapl", "rows"), ("msft", "rows")]) =
      DisplayAction.writeRaw ∧
    classifyHistoryResult (Value.table [["2020-01-02", "300.35"]]) =
      ResultClass.TabularResult :=
  ⟨(history_result_classification 2
      (Value.dict [("aapl", "rows"), ("msft", "rows")])).1.mp rfl,
   (history_result_classification 1
      (Value.table [["2020-01-02", "300.35"]])).2.2.2⟩
